import Mathlib

/-
  Verification of the docgen DOCX service (src/main.py) against its
  natural-language specification.  The Python source is shallowly embedded:
  pure helpers become Lean functions, the module-level mutable state
  (FILE_REGISTRY and the files under OUTPUT_DIR) becomes an explicit state
  record threaded through the endpoint functions, and fallible operations
  (HTTP errors, I/O failures) are modelled with Except and explicit failure
  oracles at exactly the places the Python code can raise or catch.
-/

namespace DocGen

/-! ## String primitives

    Structurally recursive, kernel-computable counterparts of the Python
    string operations used by src/main.py (strip, rstrip, startswith,
    endswith, split, slicing, join, and the \r\n normalization). -/

def wsChar (c : Char) : Bool := c.isWhitespace

/-- Python str.strip(): drop whitespace from both ends. -/
def pyStrip (s : String) : String :=
  String.mk (((s.data.dropWhile wsChar).reverse.dropWhile wsChar).reverse)

/-- Python str.rstrip(): drop whitespace from the right end. -/
def pyRStrip (s : String) : String :=
  String.mk ((s.data.reverse.dropWhile wsChar).reverse)

/-- text.replace of each CRLF pair by a single LF. -/
def replCRLF : List Char → List Char
  | [] => []
  | '\r' :: '\n' :: rest => '\n' :: replCRLF rest
  | c :: rest => c :: replCRLF rest

/-- split on the newline character. -/
def splitNL : List Char → List (List Char)
  | [] => [[]]
  | '\n' :: rest => [] :: splitNL rest
  | c :: rest =>
    match splitNL rest with
    | [] => [[c]]
    | l :: ls => (c :: l) :: ls

def pyLines (s : String) : List String :=
  (splitNL (replCRLF s.data)).map String.mk

def strStartsWith (s p : String) : Bool := p.data.isPrefixOf s.data

def strEndsWith (s p : String) : Bool := p.data.reverse.isPrefixOf s.data.reverse

def strDrop (s : String) (n : Nat) : String := String.mk (s.data.drop n)

def strTake (s : String) (n : Nat) : String := String.mk (s.data.take n)

/-- Python sep.join(parts). -/
def joinSep (sep : String) : List String → String
  | [] => ""
  | [s] => s
  | s :: rest => s ++ sep ++ joinSep sep rest

instance exceptDecEq {ε α : Type} [DecidableEq ε] [DecidableEq α] :
    DecidableEq (Except ε α) := fun a b =>
  match a, b with
  | Except.ok x, Except.ok y =>
    if h : x = y then Decidable.isTrue (by rw [h])
    else Decidable.isFalse (by intro hh; cases hh; exact h rfl)
  | Except.error x, Except.error y =>
    if h : x = y then Decidable.isTrue (by rw [h])
    else Decidable.isFalse (by intro hh; cases hh; exact h rfl)
  | Except.ok _, Except.error _ => Decidable.isFalse (by intro hh; cases hh)
  | Except.error _, Except.ok _ => Decidable.isFalse (by intro hh; cases hh)

/-! ## Filename sanitization (src/main.py, sanitize_filename, lines 98-102)

    Python:
      name = name.strip()
      name = re.sub(r"[^\w\-\. ]+", "", name, flags=re.UNICODE)
      name = re.sub(r"\s+", "_", name)
      return name[:120]

    The character class kept by the first substitution is word characters
    (letters, digits, underscore) plus hyphen, dot and space.  After the
    filter the only whitespace left is the space character, so the second
    substitution collapses each maximal run of spaces into one underscore. -/

def keptChar (c : Char) : Bool :=
  c.isAlphanum || c = '_' || c = '-' || c = '.' || c = ' '

/-- Collapse each maximal run of spaces into a single underscore.
    The boolean records whether the previous character was a space. -/
def collapseSpaces : List Char → Bool → List Char
  | [], _ => []
  | c :: rest, prevSpace =>
    if c = ' ' then
      if prevSpace then collapseSpaces rest true
      else '_' :: collapseSpaces rest true
    else c :: collapseSpaces rest false

def sanitize_filename (name : String) : String :=
  let s := pyStrip name
  let filtered := s.data.filter keptChar
  let collapsed := collapseSpaces filtered false
  String.mk (collapsed.take 120)

/-- The safe set the specification text asserts for display names:
    letters, digits, hyphen, dot, space (and no other character). -/
def specSafeChar (c : Char) : Bool :=
  c.isAlpha || c.isDigit || c = '-' || c = '.' || c = ' '

/-! ## Markdown rendering (src/main.py, add_text_with_basic_markdown, 105-144)

    The document object built through python-docx is modelled as a list of
    blocks: one block per add_heading / add_paragraph / page-break call,
    where a paragraph added with style "List Bullet" is a bullet block. -/

inductive Block where
  | heading (level : Nat) (text : String)
  | para (text : String)
  | bullet (text : String)
  | pageBreak
deriving DecidableEq, Repr

/-- One step per input line, carrying the pending bullet_buffer; flushing
    the buffer emits one List-Bullet paragraph per buffered item. -/
def mdGo : List String → List String → List Block
  | buf, [] => buf.map Block.bullet
  | buf, l :: ls =>
    let line := pyRStrip l
    if (pyStrip line).data.isEmpty then
      buf.map Block.bullet ++ (Block.para "" :: mdGo [] ls)
    else if strStartsWith line "## " then
      buf.map Block.bullet ++ (Block.heading 2 (strDrop line 3) :: mdGo [] ls)
    else if strStartsWith line "# " then
      buf.map Block.bullet ++ (Block.heading 1 (strDrop line 2) :: mdGo [] ls)
    else if strStartsWith line "- " then
      mdGo (buf ++ [strDrop line 2]) ls
    else
      buf.map Block.bullet ++ (Block.para line :: mdGo [] ls)

def add_text_with_basic_markdown (text : String) : List Block :=
  mdGo [] (pyLines text)

/-! Rendered structure: in a DOCX document, a maximal run of consecutive
    List-Bullet paragraphs displays as a single bulleted list.  grouping
    coalesces such runs so claims about the rendered structure can be
    stated. -/

inductive Elem where
  | heading (level : Nat) (text : String)
  | para (text : String)
  | bullets (items : List String)
  | pageBreak
deriving DecidableEq, Repr

def group : List Block → List Elem
  | [] => []
  | Block.bullet t :: rest =>
    match group rest with
    | Elem.bullets items :: es => Elem.bullets (t :: items) :: es
    | es => Elem.bullets [t] :: es
  | Block.heading l t :: rest => Elem.heading l t :: group rest
  | Block.para t :: rest => Elem.para t :: group rest
  | Block.pageBreak :: rest => Elem.pageBreak :: group rest

/-- Well-formed grouping: every bulleted list is non-empty and no two
    bulleted lists are adjacent (each run is maximal). -/
def bulletsOk : List Elem → Bool
  | [] => true
  | Elem.bullets items :: rest =>
    (!items.isEmpty) &&
    (match rest with
     | Elem.bullets _ :: _ => false
     | _ => true) &&
    bulletsOk rest
  | _ :: rest => bulletsOk rest

/-! ## Base64 (base64.b64encode, used at src/main.py line 271). -/

def b64Char (n : Nat) : Char :=
  ("ABCDEFGHIJKLMNOPQRSTUVWXYZabcdefghijklmnopqrstuvwxyz0123456789+/").data.getD n '#'

/-- RFC 4648 base64 of a byte list (each input taken mod 256). -/
def b64encode : List Nat → List Char
  | [] => []
  | [a] =>
    let a := a % 256
    [b64Char (a / 4), b64Char (a % 4 * 16), '=', '=']
  | [a, b] =>
    let a := a % 256
    let b := b % 256
    [b64Char (a / 4), b64Char (a % 4 * 16 + b / 16), b64Char (b % 16 * 4), '=']
  | a :: b :: c :: rest =>
    let a := a % 256
    let b := b % 256
    let c := c % 256
    b64Char (a / 4) :: b64Char (a % 4 * 16 + b / 16) ::
      b64Char (b % 16 * 4 + c / 64) :: b64Char (c % 64) :: b64encode rest

/-! ## Request model (src/main.py, MODELS, lines 42-79). -/

inductive DocumentType where
  | cover_letter | cv | recruiter_scorecard
deriving DecidableEq, Repr

inductive FormatType where
  | docx
deriving DecidableEq, Repr

structure Candidate where
  full_name : Option String
  email : Option String
  phone : Option String
  location : Option String
deriving DecidableEq, Repr

structure DocSection where
  heading : Option String
  text : String
deriving DecidableEq, Repr

structure Content where
  body_markdown : String
  sections : Option (List DocSection)
deriving DecidableEq, Repr

structure CreateDocumentRequest where
  document_type : DocumentType
  format : FormatType
  language : String
  title : String
  candidate : Option Candidate
  content : Content
deriving DecidableEq, Repr

/-! ## Document construction (src/main.py, build_docx, lines 186-209).

    today stands for datetime.now().strftime of the request.  Python
    truthiness: an empty full_name string and an empty sections list are
    both falsy, so they are skipped exactly like None. -/

def buildDoc (req : CreateDocumentRequest) (today : String) : List Block :=
  let nameMeta : List String :=
    match req.candidate with
    | some c =>
      match c.full_name with
      | some n => if n = "" then [] else [n]
      | none => []
    | none => []
  let meta := nameMeta ++ [today, "Language: " ++ req.language]
  [Block.heading 1 req.title, Block.para (joinSep " | " meta), Block.para ""]
  ++ add_text_with_basic_markdown req.content.body_markdown
  ++ (match req.content.sections with
      | some (s :: ss) =>
        Block.pageBreak :: Block.heading 2 "Additional Sections" ::
          (s :: ss).foldr (fun sec acc =>
            (match sec.heading with
             | some h => [Block.heading 3 h]
             | none => []) ++ add_text_with_basic_markdown sec.text ++ acc) []
      | _ => [])

/-! ## Service state

    The module-level mutable state of src/main.py: FILE_REGISTRY (line 30)
    and the files of OUTPUT_DIR.  File names are kept relative to
    OUTPUT_DIR, and a disk file carries its mtime and the document object
    it serializes. -/

structure RegEntry where
  path : String
  created_at : Nat
deriving DecidableEq, Repr

structure DiskFile where
  name : String
  mtime : Nat
  content : List Block
deriving DecidableEq, Repr

structure St where
  registry : List (String × RegEntry)
  disk : List DiskFile
deriving DecidableEq, Repr

/-! ## Retention sweep (src/main.py, cleanup_expired_files, lines 147-179)

    fail is the I/O failure oracle: fail p means os.remove(p) raises; the
    exception is caught by the per-entry try/except.  listOk models whether
    os.listdir itself succeeds (its failure is caught by the outer
    try/except, skipping the disk pass). -/

def regExpired (ttl now : Nat) (e : String × RegEntry) : Bool :=
  decide (ttl < now - e.2.created_at)

def diskHas (disk : List DiskFile) (p : String) : Bool :=
  disk.any (fun f => f.name = p)

/-- Lines 158-163: inside try, the path is removed only when it exists
    (so removing an already-absent file raises nothing); if os.remove
    raises, except: pass leaves the disk unchanged. -/
def tryRemovePath (fail : String → Bool) (disk : List DiskFile) (p : String) :
    List DiskFile :=
  if diskHas disk p then
    if fail p then disk else disk.filter (fun f => f.name ≠ p)
  else disk

def cleanup_expired_files (ttl now : Nat) (fail : String → Bool) (listOk : Bool)
    (st : St) : St :=
  let toDelete := st.registry.filter (regExpired ttl now)
  let disk1 := toDelete.foldl (fun d e => tryRemovePath fail d e.2.path) st.disk
  let reg1 := st.registry.filter (fun e => !(regExpired ttl now e))
  let disk2 :=
    if listOk then
      disk1.filter (fun f =>
        !(strEndsWith f.name ".docx" && decide (ttl < now - f.mtime) && !(fail f.name)))
    else disk1
  St.mk reg1 disk2

/-! ## Persistence (src/main.py, build_docx, lines 211-220). -/

def docxMime : String :=
  "application/vnd.openxmlformats-officedocument.wordprocessingml.document"

structure BuildOut where
  file_id : String
  file_name : String
  file_path : String
deriving DecidableEq, Repr

/-- fid stands for the fresh uuid4().hex drawn at line 212; writeOk models
    whether doc.save succeeds (none = the save raised, uncaught). -/
def build_docx (req : CreateDocumentRequest) (fid today : String) (now : Nat)
    (writeOk : Bool) (disk : List DiskFile) :
    Option (BuildOut × List DiskFile) :=
  let safe_title := sanitize_filename req.title
  let file_name := safe_title ++ "_" ++ strTake fid 12 ++ ".docx"
  let file_path := fid ++ ".docx"
  if writeOk then
    some (BuildOut.mk fid file_name file_path,
      DiskFile.mk file_path now (buildDoc req today) :: disk.filter (fun f => f.name ≠ file_path))
  else none

/-- Attempt-level view of the persistence step (src/main.py lines 217-219):
    the path is constructed and doc.save(file_path) is called once, with no
    surrounding try/except and no directory (re)creation (os.makedirs runs
    only once, at import, line 24).  The oracle gives the outcome of each
    successive save attempt; the result is (attempts made, success). -/
def put_save (writeOk : Nat → Bool) : Nat × Bool :=
  if writeOk 0 then (1, true) else (1, false)

/-- Modelled from the spec (for refinement comparison only, src has no such
    code): on I/O failure the write is retried once after best-effort
    directory (re)creation, and only a second failure is surfaced. -/
def put_spec_retry (writeOk : Nat → Bool) : Nat × Bool :=
  if writeOk 0 then (1, true)
  else if writeOk 1 then (2, true)
  else (2, false)

/-! ## Resolution (src/main.py, resolve_file_path, lines 223-236). -/

def resolve_file_path (fid : String) (st : St) : Option String :=
  let fromReg : Option String :=
    match st.registry.find? (fun e => e.1 = fid) with
    | some e => if diskHas st.disk e.2.path then some e.2.path else none
    | none => none
  match fromReg with
  | some p => some p
  | none =>
    let deterministic := fid ++ ".docx"
    if diskHas st.disk deterministic then some deterministic else none

/-! ## Errors and endpoint responses. -/

inductive Err where
  | unauthorized (detail : String)
  | notFound (detail : String)
  | storageWrite
deriving DecidableEq, Repr

structure CreateDocumentResponse where
  file_id : String
  file_name : String
  content_type : String
  download_url : String
  download_markdown : String
  file_base64 : Option (List Char)
deriving DecidableEq, Repr

structure FileResponse where
  path : String
  media_type : String
  filename : String
  content : List Block
deriving DecidableEq, Repr

/-! ## Auth (src/main.py, verify_bearer_token, lines 85-91).

    Python truthiness again: a condition of the form if-not-authorization rejects both a missing
    header and an empty string. -/

def verify_bearer_token (token : String) (authorization : Option String) :
    Option Err :=
  match authorization with
  | none => some (Err.unauthorized "Missing Authorization header")
  | some a =>
    if a = "" then some (Err.unauthorized "Missing Authorization header")
    else if pyStrip a = "Bearer " ++ token then none
    else some (Err.unauthorized "Unauthorized")

/-! ## POST /v1/documents (src/main.py, create_document, lines 254-280).

    ser stands for the python-docx byte serialization of a document object
    (out of scope, parameterized).  The base64 field is computed by
    re-reading file_path from disk (line 270), not from the in-memory
    document. -/

def create_document (ser : List Block → List Nat) (token baseUrl : String)
    (authorization : Option String) (req : CreateDocumentRequest)
    (fid today : String) (ttl now : Nat) (fail : String → Bool)
    (listOk writeOk : Bool) (st : St) :
    Except Err CreateDocumentResponse × St :=
  match verify_bearer_token token authorization with
  | some e => (Except.error e, st)
  | none =>
    let st1 := cleanup_expired_files ttl now fail listOk st
    match build_docx req fid today now writeOk st1.disk with
    | none => (Except.error Err.storageWrite, st1)
    | some (out, disk2) =>
      let reg2 := (fid, RegEntry.mk out.file_path now) :: st1.registry.filter (fun e => e.1 ≠ fid)
      let download_path := "/v1/download/" ++ fid
      let download_url := if baseUrl = "" then download_path else baseUrl ++ download_path
      let download_markdown := "[Download DOCX](" ++ download_url ++ ")"
      let encoded : Option (List Char) :=
        match disk2.find? (fun f => f.name = out.file_path) with
        | some f => some (b64encode (ser f.content))
        | none => none
      (Except.ok (CreateDocumentResponse.mk out.file_id out.file_name docxMime
          download_url download_markdown encoded),
        St.mk reg2 disk2)

/-! ## GET /v1/download/{file_id} (src/main.py, download_document, 285-304).

    glob(os.path.join(OUTPUT_DIR, "*_" + file_id + ".docx")) returns, in
    directory-listing order, exactly the names of the form X_fid.docx
    (glob's star matches any run of characters of a name, including the
    empty run). -/

def globMatches (fid name : String) : Bool :=
  strEndsWith name ("_" ++ fid ++ ".docx")

/-- Lines 290-296: the glob filter over the listing, selecting matches[0]
    (the first match in listing order) when any match exists. -/
def glob_select (listing : List String) (fid : String) : Option String :=
  (listing.filter (globMatches fid)).head?

def download_document (fid : String) (ttl now : Nat) (fail : String → Bool)
    (listOk : Bool) (st : St) : Except Err FileResponse × St :=
  let st1 := cleanup_expired_files ttl now fail listOk st
  match glob_select (st1.disk.map (fun f => f.name)) fid with
  | none =>
    (Except.error (Err.notFound "Suggest: regenerate the document (expired or unknown id)."), st1)
  | some p =>
    match st1.disk.find? (fun f => f.name = p) with
    | none => (Except.error (Err.notFound "File not found on disk."), st1)
    | some f => (Except.ok (FileResponse.mk p docxMime p f.content), st1)

/-! ## Concrete example inputs used to evaluate the endpoints. -/

/-- The concrete scenario of the spec: a cover-letter request. -/
def exReq : CreateDocumentRequest :=
  CreateDocumentRequest.mk DocumentType.cover_letter FormatType.docx "en" "Cover Letter"
    none (Content.mk "# Intro\nHello\n- Point A\n- Point B" none)

/-- A sample document serialization (stands for the python-docx bytes). -/
def exSer : List Block → List Nat := fun bs => [bs.length]

/-- Failure oracle under which no removal fails. -/
def exNoFail : String → Bool := fun _ => false

/-- Failure oracle under which only the removal of bad.docx fails. -/
def exFailBad : String → Bool := fun s => decide (s = "bad.docx")

/-- A concrete identifier, standing for the uuid4().hex drawn at creation. -/
def exFid : String := "0f3a9d71c2e64b5880a41c6f2d7e9503"

/-- One authenticated create on an empty store at time 1000, TTL 86400. -/
def exCreate : Except Err CreateDocumentResponse × St :=
  create_document exSer "tok" "" (some "Bearer tok") exReq exFid "2026-10-12"
    86400 1000 exNoFail true true (St.mk [] [])

/-- The same create with TTL 100, for the expiry boundary scenario. -/
def exCreateTtl : Except Err CreateDocumentResponse × St :=
  create_document exSer "tok" "" (some "Bearer tok") exReq exFid "2026-10-12"
    100 1000 exNoFail true true (St.mk [] [])

def okFileId : Except Err CreateDocumentResponse → Option String
  | Except.ok r => some r.file_id
  | Except.error _ => none

def okB64 : Except Err CreateDocumentResponse → Option (Option (List Char))
  | Except.ok r => some r.file_base64
  | Except.error _ => none

/-- A store holding one file whose name matches identifier X. -/
def stC8 : St := St.mk [] [DiskFile.mk "a_X.docx" 50 []]

/-! ## Theorems -/

/-- Claim C1 (code_bug): the spec requires that immediately resolving the
identifier returned by a valid create yields the persisted bytes.  The code
violates it: evaluating a concrete authenticated create, the document is
persisted on disk under the name identifier.docx with exactly the rendered
content, yet the immediate GET of that identifier answers 404, because
download_document searches with the glob pattern star-underscore-identifier
dot docx, which the stored name (identifier dot docx, no underscore) can
never match. -/
theorem claim_C1_roundtrip_broken :
    okFileId exCreate.1 = some exFid
    ∧ exCreate.2.disk.map (fun f => f.name) = [exFid ++ ".docx"]
    ∧ exCreate.2.disk.map (fun f => f.content) = [buildDoc exReq "2026-10-12"]
    ∧ (download_document exFid 86400 1000 exNoFail true exCreate.2).1
        = Except.error (Err.notFound "Suggest: regenerate the document (expired or unknown id).") := by
  decide

/-- Claim C2 (code_bug): the spec requires that after discarding the
in-memory registry (simulating a restart) an artifact still resolves from
the identifier and the directory listing alone.  In the code the persisted
file does survive and the identifier-derived deterministic path finds it
(resolve_file_path, which no endpoint calls), but the actual download
endpoint still answers 404 on the registry-free state, for the same glob
mismatch as C1 - so resolution fails with or without the registry. -/
theorem claim_C2_restart_resolution_broken :
    resolve_file_path exFid (St.mk [] exCreate.2.disk) = some (exFid ++ ".docx")
    ∧ (download_document exFid 86400 1000 exNoFail true (St.mk [] exCreate.2.disk)).1
        = Except.error (Err.notFound "Suggest: regenerate the document (expired or unknown id).") := by
  decide

/-- Claim C3 (code_bug): for an artifact created at T = 1000 with TTL = 100,
the sweep itself is correct at the boundary - the file survives a cleanup at
T+99 and is removed by the cleanup at T+101 - but the required successful
resolve at T+tau-1 fails: the download answers 404 even while the file is
live on disk, because of the glob mismatch of C1. -/
theorem claim_C3_expiry_boundary :
    (cleanup_expired_files 100 1099 exNoFail true exCreateTtl.2).disk.map (fun f => f.name)
        = [exFid ++ ".docx"]
    ∧ (download_document exFid 100 1099 exNoFail true exCreateTtl.2).1
        = Except.error (Err.notFound "Suggest: regenerate the document (expired or unknown id).")
    ∧ (cleanup_expired_files 100 1101 exNoFail true exCreateTtl.2).disk = []
    ∧ (download_document exFid 100 1101 exNoFail true exCreateTtl.2).1
        = Except.error (Err.notFound "Suggest: regenerate the document (expired or unknown id).") := by
  decide

/-- Claim C4 (confirmed): a POST with a missing or mismatched bearer
credential is answered with a 401 error produced before the sweep, the
render, the write and the registry insertion run, and the returned state is
exactly the input state - no artifact, no file, no registry entry, no sweep.
Every verification failure is a 401. -/
theorem claim_C4_auth_rejected_no_side_effects :
    (∀ (ser : List Block → List Nat) (token baseUrl : String) (auth : Option String)
        (req : CreateDocumentRequest) (fid today : String) (ttl now : Nat)
        (fail : String → Bool) (listOk writeOk : Bool) (st : St) (e : Err),
      verify_bearer_token token auth = some e →
      create_document ser token baseUrl auth req fid today ttl now fail listOk writeOk st
        = (Except.error e, st))
    ∧ (∀ (token : String) (auth : Option String) (e : Err),
      verify_bearer_token token auth = some e → ∃ d, e = Err.unauthorized d) := by
  constructor
  · intro ser token baseUrl auth req fid today ttl now fail listOk writeOk st e h
    simp only [create_document, h]
  · intro token auth e h
    cases auth with
    | none =>
      simp only [verify_bearer_token, Option.some.injEq] at h
      exact ⟨_, h.symm⟩
    | some a =>
      simp only [verify_bearer_token] at h
      split at h
      · simp only [Option.some.injEq] at h
        exact ⟨_, h.symm⟩
      · split at h
        · simp at h
        · simp only [Option.some.injEq] at h
          exact ⟨_, h.symm⟩

/-- Witness for C4: a concrete mismatched credential is rejected with 401
and the (empty) store is returned unchanged. -/
theorem claim_C4_auth_rejected_no_side_effects_witness :
    create_document exSer "tok" "" (some "Bearer wrong") exReq exFid "2026-10-12" 86400 1000
      exNoFail true true (St.mk [] [])
      = (Except.error (Err.unauthorized "Unauthorized"), St.mk [] []) :=
  claim_C4_auth_rejected_no_side_effects.1 exSer "tok" "" (some "Bearer wrong") exReq exFid
    "2026-10-12" 86400 1000 exNoFail true true (St.mk [] []) (Err.unauthorized "Unauthorized")
    (by decide)

/-- Every character of a collapsed list is a non-space character of the
input or the underscore separator. -/
theorem mem_collapseSpaces {c : Char} :
    ∀ (l : List Char) (b : Bool), c ∈ collapseSpaces l b → (c ∈ l ∧ c ≠ ' ') ∨ c = '_' := by
  intro l
  induction l with
  | nil => intro b h; simp [collapseSpaces] at h
  | cons x rest ih =>
    intro b h
    by_cases hx : x = ' '
    · subst hx
      simp only [collapseSpaces, if_pos rfl] at h
      cases b with
      | true =>
        rcases ih true h with ⟨hm, hne⟩ | he
        · exact Or.inl ⟨List.mem_cons_of_mem _ hm, hne⟩
        · exact Or.inr he
      | false =>
        rcases List.mem_cons.mp h with he | h2
        · exact Or.inr he
        · rcases ih true h2 with ⟨hm, hne⟩ | he
          · exact Or.inl ⟨List.mem_cons_of_mem _ hm, hne⟩
          · exact Or.inr he
    · simp only [collapseSpaces, if_neg hx] at h
      rcases List.mem_cons.mp h with he | h2
      · subst he
        exact Or.inl ⟨List.mem_cons_self _ _, hx⟩
      · rcases ih false h2 with ⟨hm, hne⟩ | he
        · exact Or.inl ⟨List.mem_cons_of_mem _ hm, hne⟩
        · exact Or.inr he

/-- Claim C5 counterexample: the display name derived from the title
"My Cover" contains an underscore, a character outside the safe set the
claim asserts (letters, digits, hyphen, dot, space); and the title "???"
sanitizes to the empty string, which is not the claimed fallback
"document". -/
theorem claim_C5_counterexample :
    ('_' ∈ (sanitize_filename "My Cover").data ∧ specSafeChar '_' = false)
    ∧ sanitize_filename "???" = "" ∧ ("" : String) ≠ "document" := by
  decide

/-- Claim C5 (corrected): every character of a derived display name is a
word character (letter, digit or underscore), a hyphen or a dot - never a
space, since whitespace runs are collapsed into single underscore
separators - and the name is truncated to at most 120 characters.  An empty
sanitization result stays empty: the code has no fallback default. -/
theorem claim_C5_sanitize_amended (title : String) :
    (∀ c ∈ (sanitize_filename title).data,
      c.isAlphanum = true ∨ c = '_' ∨ c = '-' ∨ c = '.')
    ∧ (sanitize_filename title).length ≤ 120
    ∧ ' ' ∉ (sanitize_filename title).data := by
  have base : ∀ c ∈ (sanitize_filename title).data,
      (keptChar c = true ∧ c ≠ ' ') ∨ c = '_' := by
    intro c hc
    have hc' : c ∈ List.take 120
        (collapseSpaces ((pyStrip title).data.filter keptChar) false) := hc
    have hc'' := List.take_subset _ _ hc'
    rcases mem_collapseSpaces _ _ hc'' with ⟨hm, hne⟩ | he
    · exact Or.inl ⟨(List.mem_filter.mp hm).2, hne⟩
    · exact Or.inr he
  refine ⟨?_, ?_, ?_⟩
  · intro c hc
    rcases base c hc with ⟨hk, hne⟩ | he
    · simp only [keptChar, Bool.or_eq_true, decide_eq_true_eq] at hk
      rcases hk with ((((h1 | h2) | h3) | h4) | h5)
      · exact Or.inl h1
      · exact Or.inr (Or.inl h2)
      · exact Or.inr (Or.inr (Or.inl h3))
      · exact Or.inr (Or.inr (Or.inr h4))
      · exact absurd h5 hne
    · exact Or.inr (Or.inl he)
  · show (List.take 120
      (collapseSpaces ((pyStrip title).data.filter keptChar) false)).length ≤ 120
    rw [List.length_take]
    exact min_le_left _ _
  · intro hsp
    rcases base ' ' hsp with ⟨_, hne⟩ | he
    · exact hne rfl
    · simp at he

/-- Witness for C5 (amended), at the concrete title "a b": the first output
character is in the allowed set and the output length is capped. -/
theorem claim_C5_sanitize_amended_witness :
    ('a'.isAlphanum = true ∨ 'a' = '_' ∨ 'a' = '-' ∨ 'a' = '.')
    ∧ (sanitize_filename "a b").length ≤ 120 :=
  ⟨(claim_C5_sanitize_amended "a b").1 'a' (by decide),
   (claim_C5_sanitize_amended "a b").2.1⟩

/-- Grouping the rendered blocks always yields well-formed bullet runs:
non-empty and pairwise non-adjacent. -/
theorem bulletsOk_group (bs : List Block) : bulletsOk (group bs) = true := by
  induction bs with
  | nil => rfl
  | cons b rest ih =>
    cases b with
    | heading l t => simpa [group, bulletsOk] using ih
    | para t => simpa [group, bulletsOk] using ih
    | pageBreak => simpa [group, bulletsOk] using ih
    | bullet t =>
      simp only [group]
      cases hg : group rest with
      | nil => simp [bulletsOk]
      | cons e es =>
        rw [hg] at ih
        cases e with
        | bullets items =>
          simp only [bulletsOk, Bool.and_eq_true] at ih ⊢
          exact ⟨⟨by simp [List.isEmpty], ih.1.2⟩, ih.2⟩
        | heading l2 t2 =>
          simp only [bulletsOk, Bool.and_eq_true] at ih ⊢
          exact ⟨⟨by simp [List.isEmpty], trivial⟩, ih⟩
        | para t2 =>
          simp only [bulletsOk, Bool.and_eq_true] at ih ⊢
          exact ⟨⟨by simp [List.isEmpty], trivial⟩, ih⟩
        | pageBreak =>
          simp only [bulletsOk, Bool.and_eq_true] at ih ⊢
          exact ⟨⟨by simp [List.isEmpty], trivial⟩, ih⟩

/-- Claim C6 (confirmed): in every rendered body, maximal contiguous runs of
list-item lines appear as single non-adjacent bulleted lists, and the input
consisting of two bullet lines followed by a text line renders as exactly
one two-item bulleted list followed by one paragraph. -/
theorem claim_C6_bullet_run_flush :
    (∀ text : String, bulletsOk (group (add_text_with_basic_markdown text)) = true)
    ∧ group (add_text_with_basic_markdown "- a\n- b\ntext")
        = [Elem.bullets ["a", "b"], Elem.para "text"] :=
  ⟨fun text => bulletsOk_group (add_text_with_basic_markdown text), by decide⟩

/-- Claim C7 counterexample: under a write oracle whose first save attempt
fails and whose second attempt would succeed, the code surfaces the error
after a single attempt, while the claimed behavior performs a second
attempt and succeeds. -/
theorem claim_C7_counterexample :
    (fun n => decide (n = 1)) 0 = false
    ∧ put_save (fun n => decide (n = 1)) = (1, false)
    ∧ put_spec_retry (fun n => decide (n = 1)) = (2, true) := by
  decide

/-- Claim C7 (corrected): persistence is attempted exactly once - doc.save
has no retry and no directory (re)creation around it (the directory is made
once at import) - and that single failure propagates to the caller as a
fatal error for that request alone: the create returns the storage error
together with the state left by the sweep that ran before the write, with
no registry entry and no artifact added. -/
theorem claim_C7_single_attempt :
    (∀ writeOk : Nat → Bool, put_save writeOk = (1, writeOk 0))
    ∧ (∀ (ser : List Block → List Nat) (baseUrl : String)
        (req : CreateDocumentRequest) (fid today : String) (ttl now : Nat)
        (fail : String → Bool) (listOk : Bool) (st : St),
      create_document ser "tok" baseUrl (some "Bearer tok") req fid today ttl now
          fail listOk false st
        = (Except.error Err.storageWrite, cleanup_expired_files ttl now fail listOk st)) := by
  constructor
  · intro w
    unfold put_save
    cases h : w 0 <;> simp [h]
  · intro ser baseUrl req fid today ttl now fail listOk st
    have hv : verify_bearer_token "tok" (some "Bearer tok") = none := by decide
    simp [create_document, hv, build_docx]

/-- Claim C8 counterexample: two directory listings holding the same set of
files, both of which match the lookup pattern of identifier X, presented in
opposite orders, make the endpoint select different files; for the second
order the choice is not the lexicographically first match. -/
theorem claim_C8_counterexample :
    (["a_X.docx", "b_X.docx"] : List String).Perm ["b_X.docx", "a_X.docx"]
    ∧ glob_select ["a_X.docx", "b_X.docx"] "X" = some "a_X.docx"
    ∧ glob_select ["b_X.docx", "a_X.docx"] "X" = some "b_X.docx" := by
  decide

/-- Claim C8 (corrected): on multiple (indeed any) matches the endpoint
never crashes: it selects the first match in directory-listing order - not
lexicographic order, so the selection depends on how the listing presents
the files - and serves that file successfully. -/
theorem claim_C8_first_listed_match
    (fid : String) (ttl now : Nat) (fail : String → Bool) (listOk : Bool) (st : St)
    (p : String)
    (h : glob_select ((cleanup_expired_files ttl now fail listOk st).disk.map
          (fun f => f.name)) fid = some p) :
    ∃ f : FileResponse,
      (download_document fid ttl now fail listOk st).1 = Except.ok f
      ∧ f.path = p ∧ f.filename = p := by
  have h1 : p ∈ ((cleanup_expired_files ttl now fail listOk st).disk.map
      (fun f => f.name)).filter (globMatches fid) := by
    unfold glob_select at h
    cases hL : ((cleanup_expired_files ttl now fail listOk st).disk.map
        (fun f => f.name)).filter (globMatches fid) with
    | nil => rw [hL] at h; simp at h
    | cons x xs =>
      rw [hL] at h
      simp only [List.head?] at h
      injection h with h2
      rw [← h2]
      exact List.mem_cons_self _ _
  have hp : p ∈ (cleanup_expired_files ttl now fail listOk st).disk.map (fun f => f.name) :=
    List.mem_of_mem_filter h1
  obtain ⟨f0, hf0, hfname⟩ := List.mem_map.mp hp
  have hsome : ((cleanup_expired_files ttl now fail listOk st).disk.find?
      (fun f => f.name = p)).isSome := by
    rw [List.find?_isSome]
    exact ⟨f0, hf0, by simp [hfname]⟩
  obtain ⟨g, hg⟩ := Option.isSome_iff_exists.mp hsome
  refine ⟨FileResponse.mk p docxMime p g.content, ?_, rfl, rfl⟩
  simp only [download_document, h, hg]

/-- Witness for C8 (amended): with one matching stored file, the download
serves it. -/
theorem claim_C8_first_listed_match_witness :
    ∃ f : FileResponse,
      (download_document "X" 100 60 exNoFail true stC8).1 = Except.ok f
      ∧ f.path = "a_X.docx" ∧ f.filename = "a_X.docx" :=
  claim_C8_first_listed_match "X" 100 60 exNoFail true stC8 "a_X.docx" (by decide)

/-- Filtering by a predicate after filtering by its negation leaves
nothing. -/
theorem filter_not_then_filter {α : Type} (p : α → Bool) (l : List α) :
    (l.filter (fun a => !(p a))).filter p = [] := by
  induction l with
  | nil => rfl
  | cons x xs ih =>
    cases hx : p x with
    | true => simp [List.filter_cons, hx, ih]
    | false => simp [List.filter_cons, hx, ih]

/-- Filtering twice by the same predicate is filtering once. -/
theorem filter_twice {α : Type} (p : α → Bool) (l : List α) :
    (l.filter p).filter p = l.filter p := by
  induction l with
  | nil => rfl
  | cons x xs ih =>
    cases hx : p x with
    | true => simp [List.filter_cons, hx, ih]
    | false => simp [List.filter_cons, hx, ih]

/-- An element on which the predicate is false is not in the filtered
list. -/
theorem not_mem_filter_of_pred_false {α : Type} {p : α → Bool} {a : α}
    (h : p a = false) (l : List α) : a ∉ l.filter p := by
  intro hm
  rw [List.mem_filter] at hm
  rw [h] at hm
  exact absurd hm.2 (by simp)

/-- Claim C9 (confirmed): the sweep is idempotent - a second pass at the
same instant changes nothing, in particular evicting an identifier whose
artifact is already absent raises no error, since the remove is guarded by
an existence check and every per-artifact failure is caught - an individual
removal failure never prevents the eviction of other expired artifacts, and
no sweep outcome (any failure oracle, any listing outcome) ever makes the
triggering create request fail. -/
theorem claim_C9_idempotent_contained_sweep
    (ttl now : Nat) (fail : String → Bool) (listOk : Bool) (st : St) :
    cleanup_expired_files ttl now fail listOk (cleanup_expired_files ttl now fail listOk st)
      = cleanup_expired_files ttl now fail listOk st
    ∧ (∀ f : DiskFile, strEndsWith f.name ".docx" = true → ttl < now - f.mtime →
        fail f.name = false → listOk = true →
        f ∉ (cleanup_expired_files ttl now fail listOk st).disk)
    ∧ (∀ (ser : List Block → List Nat) (baseUrl : String) (req : CreateDocumentRequest)
        (fid today : String),
      ∃ r, (create_document ser "tok" baseUrl (some "Bearer tok") req fid today ttl now
          fail listOk true st).1 = Except.ok r) := by
  refine ⟨?_, ?_, ?_⟩
  · simp only [cleanup_expired_files]
    rw [filter_not_then_filter]
    simp only [List.foldl_nil]
    rw [filter_twice]
    cases listOk with
    | true => simp [filter_twice]
    | false => simp
  · intro f hend hexp hfail hlist
    subst hlist
    have hP : (!(strEndsWith f.name ".docx" && decide (ttl < now - f.mtime)
        && !(fail f.name))) = false := by
      rw [hend, hfail, decide_eq_true hexp]
      rfl
    simp only [cleanup_expired_files]
    rw [if_pos trivial]
    exact @not_mem_filter_of_pred_false _
      (fun g => !(strEndsWith g.name ".docx" && decide (ttl < now - g.mtime) && !(fail g.name)))
      f hP _
  · intro ser baseUrl req fid today
    have hv : verify_bearer_token "tok" (some "Bearer tok") = none := by decide
    simp [create_document, hv, build_docx]

/-- Witness for C9: with a sweep in which the removal of bad.docx fails,
the other expired artifact old.docx is still evicted. -/
theorem claim_C9_idempotent_contained_sweep_witness :
    DiskFile.mk "old.docx" 0 [] ∉
      (cleanup_expired_files 10 100 exFailBad true
        (St.mk [] [DiskFile.mk "bad.docx" 0 [], DiskFile.mk "old.docx" 0 []])).disk :=
  (claim_C9_idempotent_contained_sweep 10 100 exFailBad true
      (St.mk [] [DiskFile.mk "bad.docx" 0 [], DiskFile.mk "old.docx" 0 []])).2.1
    (DiskFile.mk "old.docx" 0 []) (by decide) (by decide) (by decide) rfl

/-- Claim C10 counterexample: at a concrete successful create, the response
field file_base64 is non-null and equals the base64 of the persisted
serialized document, yet a later download of the returned identifier serves
no bytes at all: it fails 404 (the C1 glob mismatch), so the bytes cannot
match the ones a later download of that identifier would serve. -/
theorem claim_C10_counterexample :
    okB64 exCreate.1 = some (some (b64encode (exSer (buildDoc exReq "2026-10-12"))))
    ∧ (download_document exFid 86400 1000 exNoFail true exCreate.2).1
        = Except.error (Err.notFound "Suggest: regenerate the document (expired or unknown id).") := by
  decide

/-- Claim C10 (corrected): every successful create response carries a
non-null file_base64 holding the base64 encoding of exactly the serialized
document persisted on disk for that artifact - the handler always fills the
field even though the response model declares it optional.  The
later-download-equivalence part of the original claim fails with the C1
bug. -/
theorem claim_C10_base64_of_persisted
    (ser : List Block → List Nat) (token baseUrl : String) (auth : Option String)
    (req : CreateDocumentRequest) (fid today : String) (ttl now : Nat)
    (fail : String → Bool) (listOk : Bool) (st : St)
    (h : verify_bearer_token token auth = none) :
    ∃ resp,
      (create_document ser token baseUrl auth req fid today ttl now fail listOk true st).1
        = Except.ok resp
      ∧ resp.file_base64 = some (b64encode (ser (buildDoc req today)))
      ∧ DiskFile.mk (fid ++ ".docx") now (buildDoc req today)
          ∈ (create_document ser token baseUrl auth req fid today ttl now fail listOk true st).2.disk := by
  simp only [create_document, h, build_docx, if_pos rfl]
  refine ⟨_, rfl, ?_, ?_⟩
  · simp [List.find?]
  · exact List.mem_cons_self _ _

/-- Witness for C10 (amended) at the concrete create of C1. -/
theorem claim_C10_base64_of_persisted_witness :
    ∃ resp,
      (create_document exSer "tok" "" (some "Bearer tok") exReq exFid "2026-10-12"
          86400 1000 exNoFail true true (St.mk [] [])).1 = Except.ok resp
      ∧ resp.file_base64 = some (b64encode (exSer (buildDoc exReq "2026-10-12")))
      ∧ DiskFile.mk (exFid ++ ".docx") 1000 (buildDoc exReq "2026-10-12")
          ∈ (create_document exSer "tok" "" (some "Bearer tok") exReq exFid "2026-10-12"
              86400 1000 exNoFail true true (St.mk [] [])).2.disk :=
  claim_C10_base64_of_persisted exSer "tok" "" (some "Bearer tok") exReq exFid "2026-10-12"
    86400 1000 exNoFail true (St.mk [] []) (by decide)

end DocGen
